import Mathlib

/-!
Verification of the infinite-horizon hypertension-treatment MDP engine.

The development shallowly embeds the Python sources:
  * `sbp_reductions_drugtype.py`  (dose-response model for systolic pressure)
  * `post_treatment_risk.py`      (post-treatment risk rescaling)
  * `transition_probabilities_infinite.py` (`TP_infinite`)
  * `policy_evaluation_infinite.py` (`evaluate_pi_infinite`,
    `evaluate_events_infinite`, `policy_improvement_infinite`)
  * `aha_2017_guideline_infinite.py` (`aha_guideline_infinite`)
  * `risk_based_policy_infinite.py` (`risk_policy_infinite`)

Real numbers of the source are modelled as exact rationals.  Floating-point
`NaN` values (used by the source as "not yet assigned" markers, and produced
by out-of-range treatment levels) are modelled as `none` of an `Option`
type; every comparison against a `NaN` is false in Python, which the
`Option`-aware comparison helpers reproduce.

Two ingredients of the source have no exact rational embedding or are not
present under `src/` and are therefore taken as parameters:
  * the floating-point power `riskslope ** (sbpreduc/20)` of
    `post_treatment_risk.py` is a parameter `pw : ℚ → ℚ → ℚ`
    (theorems that need it assume only `0 ≤ pw`, true of the float power
    on the non-negative bases it is applied to);
  * the diastolic dose-response module `dbp_reductions_drugtype.py` is
    imported by the sources but absent from the repository, so its two
    functions are modelled from the spec (§4.1), parametrised by the
    per-dose response functions.
-/

/-- The five antihypertensive drug classes of `sbp_reductions_drugtype.py`. -/
inductive Drug where
  | TH | BB | ACE | ARB | CCB
deriving DecidableEq, Repr

/-- `aceinhibitors` of `sbp_reductions_drugtype.py`: SBP drop of one
standard ACE-inhibitor dose at pre-treatment pressure `p`. -/
def aceinhibitors (p : ℚ) : ℚ := 8.5 + 0.1 * (p - 154)

/-- `calciumcb` of `sbp_reductions_drugtype.py`. -/
def calciumcb (p : ℚ) : ℚ := 8.8 + 0.1 * (p - 154)

/-- `thiazides` of `sbp_reductions_drugtype.py`. -/
def thiazides (p : ℚ) : ℚ := 8.8 + 0.1 * (p - 154)

/-- `betablock` of `sbp_reductions_drugtype.py`. -/
def betablock (p : ℚ) : ℚ := 9.2 + 0.1 * (p - 154)

/-- `arb` of `sbp_reductions_drugtype.py`. -/
def arb (p : ℚ) : ℚ := 10.3 + 0.1 * (p - 154)

/-- One `for r in range(n)` loop of `sbp_reductions`: apply `n` doses of a
drug class with response `drop`, each acting on the already-reduced
pressure (`sbp_reduc = sbp_reduc + drop(pretreatment - sbp_reduc)`). -/
def applyDoses (drop : ℚ → ℚ) : ℕ → ℚ → ℚ → ℚ
  | 0, _, red => red
  | n + 1, pre, red => applyDoses drop n pre (red + drop (pre - red))

/-- `sbp_reductions` of `sbp_reductions_drugtype.py`: cumulative SBP
reduction of drug combination `alldrugs[trt]`, counting each class and
applying the classes in the fixed order TH, BB, ACE, ARB, CCB. -/
def sbp_reductions (trt : ℕ) (pre : ℚ) (alldrugs : List (List Drug)) : ℚ :=
  let comb := alldrugs.getD trt []
  let red1 := applyDoses thiazides (comb.count Drug.TH) pre 0
  let red2 := applyDoses betablock (comb.count Drug.BB) pre red1
  let red3 := applyDoses aceinhibitors (comb.count Drug.ACE) pre red2
  let red4 := applyDoses arb (comb.count Drug.ARB) pre red3
  applyDoses calciumcb (comb.count Drug.CCB) pre red4

/-- Modelled from the spec (§4.1): the drug-combination DBP variant of the
missing module `dbp_reductions_drugtype.py`.  Mirrors `sbp_reductions`
with a per-class response function `dcomb` supplied as a parameter. -/
def dbp_reductions (dcomb : Drug → ℚ → ℚ) (trt : ℕ) (pre : ℚ)
    (alldrugs : List (List Drug)) : ℚ :=
  let comb := alldrugs.getD trt []
  let red1 := applyDoses (dcomb Drug.TH) (comb.count Drug.TH) pre 0
  let red2 := applyDoses (dcomb Drug.BB) (comb.count Drug.BB) pre red1
  let red3 := applyDoses (dcomb Drug.ACE) (comb.count Drug.ACE) pre red2
  let red4 := applyDoses (dcomb Drug.ARB) (comb.count Drug.ARB) pre red3
  applyDoses (dcomb Drug.CCB) (comb.count Drug.CCB) pre red4

/-- `new_risk` of `post_treatment_risk.py`:
`risk = riskslope[event] ** (sbpreduc/20) * pretrtrisk`.  The float power
is the parameter `pw`. -/
def new_risk (pw : ℚ → ℚ → ℚ) (sbpreduc : ℚ) (riskslope : ℕ → ℚ)
    (pretrtrisk : ℚ) (event : ℕ) : ℚ :=
  pw (riskslope event) (sbpreduc / 20) * pretrtrisk

/-- The inputs of `TP_infinite` (with ten health states, two event types).
`pw` and `dcomb` are the two modelled parameters described at the top of
the file. -/
structure TPin where
  periodrisk : ℕ → ℕ → ℚ
  chddeath : ℚ
  strokedeath : ℚ
  alldeath : ℚ
  riskslope : ℕ → ℚ
  pretrtsbp : ℕ → ℚ
  pretrtdbp : ℕ → ℚ
  sbpmin : ℚ
  dbpmin : ℚ
  sbpmax : ℚ
  dbpmax : ℚ
  alldrugs : List (List Drug)
  pw : ℚ → ℚ → ℚ
  dcomb : Drug → ℚ → ℚ

/-- `sbpreduc[h, j]` of `TP_infinite`: zero for the do-nothing treatment,
otherwise `sbp_reductions`. -/
def TPsbpreduc (t : TPin) (h j : ℕ) : ℚ :=
  if j = 0 then 0 else sbp_reductions j (t.pretrtsbp h) t.alldrugs

/-- `dbpreduc[h, j]` of `TP_infinite`. -/
def TPdbpreduc (t : TPin) (h j : ℕ) : ℚ :=
  if j = 0 then 0 else dbp_reductions t.dcomb j (t.pretrtdbp h) t.alldrugs

/-- `risk[h, k, j]` of `TP_infinite`. -/
def TPrisk (t : TPin) (h k j : ℕ) : ℚ :=
  new_risk t.pw (TPsbpreduc t h j) t.riskslope (t.periodrisk h k) k

/-- The `alternate` state of `TP_infinite` (the target when neither an
event nor death occurs). -/
def alternateOf (h : ℕ) : ℕ :=
  if h = 3 then 3
  else if h = 4 ∨ h = 1 then 1
  else if h = 5 ∨ h = 2 then 2
  else 0

/-- The `while quits == 0` block of `TP_infinite` for a live state:
priority-ordered sequential allocation with clipping, in the fixed order
stroke-death (state 8), CHD-death (7), non-CVD-death (6), stroke-survive
(5), CHD-survive (4), alternate.  Each `if cumulprob + p >= 1` branch
clips the current step to the remainder and stops (later states keep the
initial probability `0`). -/
def liveRow (strokedeath chddeath alldeath r0 r1 : ℚ) (alt : ℕ) : ℕ → ℚ :=
  let p8 := min 1 (strokedeath * r1)
  let c1 := p8
  let p7 := min 1 (chddeath * r0)
  if 1 ≤ c1 + p7 then
    fun s => if s = 8 then p8 else if s = 7 then 1 - c1 else 0
  else
    let c2 := c1 + p7
    let p6 := min 1 alldeath
    if 1 ≤ c2 + p6 then
      fun s => if s = 8 then p8 else if s = 7 then p7 else if s = 6 then 1 - c2 else 0
    else
      let c3 := c2 + p6
      let p5 := min 1 ((1 - strokedeath) * r1)
      if 1 ≤ c3 + p5 then
        fun s => if s = 8 then p8 else if s = 7 then p7 else if s = 6 then p6
          else if s = 5 then 1 - c3 else 0
      else
        let c4 := c3 + p5
        let p4 := min 1 ((1 - chddeath) * r0)
        if 1 ≤ c4 + p4 then
          fun s => if s = 8 then p8 else if s = 7 then p7 else if s = 6 then p6
            else if s = 5 then p5 else if s = 4 then 1 - c4 else 0
        else
          let c5 := c4 + p4
          fun s => if s = 8 then p8 else if s = 7 then p7 else if s = 6 then p6
            else if s = 5 then p5 else if s = 4 then p4
            else if s = alt then 1 - c5 else 0

/-- `ptrans[h, s, j]` of `TP_infinite`: dead states (6–9) place all mass on
state 9; live states use the clipped priority allocation. -/
def TP_ptrans (t : TPin) (h s j : ℕ) : ℚ :=
  if h = 6 ∨ h = 7 ∨ h = 8 ∨ h = 9 then (if s = 9 then 1 else 0)
  else
    liveRow t.strokedeath t.chddeath t.alldeath (TPrisk t h 0 j) (TPrisk t h 1 j)
      (alternateOf h) s

/-- `feasible[h, j]` of `TP_infinite` as set by the bound checks
(lines 50–64), before the fallback of lines 116–118. -/
def feasible0 (t : TPin) (h j : ℕ) : ℚ :=
  if j = 0 then
    if t.pretrtsbp h > t.sbpmax ∨ t.pretrtdbp h > t.dbpmax then 0 else 1
  else
    let sred := sbp_reductions j (t.pretrtsbp h) t.alldrugs
    let dred := dbp_reductions t.dcomb j (t.pretrtdbp h) t.alldrugs
    let newsbp := t.pretrtsbp h - sred
    let newdbp := t.pretrtdbp h - dred
    if (newsbp < t.sbpmin ∨ t.pretrtsbp h < 0) ∨ (newdbp < t.dbpmin ∨ dred < 0)
    then 0 else 1

/-- The feasibility matrix after the first `n` treatments of the `for j`
sweep of `TP_infinite`, `none` marking a not-yet-written (`NaN`) entry.
After each treatment column the source runs
`if feasible[h, :].max() == 0: feasible[h, 0] = 1` — at that point `h`
holds the leftover value `numhealth - 1 = 9` of the completed inner loop,
and the row maximum is `NaN` (hence `!= 0`) as long as some column of row
9 is still unwritten, so the test can only fire on the last treatment. -/
def feasAux (t : TPin) : ℕ → ℕ → ℕ → Option ℚ
  | 0 => fun _ _ => none
  | n + 1 =>
    let M : ℕ → ℕ → Option ℚ := fun h j =>
      if j = n ∧ h < 10 then some (feasible0 t h n) else feasAux t n h j
    if (List.range t.alldrugs.length).all (fun j' => M 9 j' == some 0) then
      fun h j => if h = 9 ∧ j = 0 then some 1 else M h j
    else M

/-- The `feasible` output of `TP_infinite` (full sweep over all
treatments, including the state-9 fallback). -/
def TP_feasible (t : TPin) (h j : ℕ) : Option ℚ :=
  feasAux t t.alldrugs.length h j

/-- The inputs shared by the three solver routines of
`policy_evaluation_infinite.py`: `S` states, `A` actions, transition
tensor `P` (state, next-state, action), rewards `r` (state, action),
discount `gamma`, convergence tolerance `tol`. -/
structure MDPin where
  S : ℕ
  A : ℕ
  P : ℕ → ℕ → ℕ → ℚ
  r : ℕ → ℕ → ℚ
  gamma : ℚ
  tol : ℚ

/-- `np.dot(P[s, :, a], V)`: expectation of `V` over next states. -/
def dotP (m : MDPin) (s a : ℕ) (V : ℕ → ℚ) : ℚ :=
  Finset.sum (Finset.range m.S) (fun s' => m.P s s' a * V s')

/-- `r[s, a] + gamma * np.dot(P[s, :, a], V)` — the state-action value. -/
def Qval (m : MDPin) (V : ℕ → ℚ) (s a : ℕ) : ℚ :=
  m.r s a + m.gamma * dotP m s a V

/-- One synchronous sweep of `evaluate_pi_infinite`
(`V[s] = r[s, pi[s]] + gamma * np.dot(P[s, :, pi[s]], V_old)`). -/
def evalStep (m : MDPin) (pi : ℕ → ℕ) (V : ℕ → ℚ) : ℕ → ℚ :=
  fun s => Qval m V s (pi s)

/-- `np.max(np.abs(V - W))` over the `S` states (the source arrays have
length `S ≥ 1`; all summands are non-negative so the `0` base of the fold
is the numpy maximum). -/
def maxAbsDiff (m : MDPin) (V W : ℕ → ℚ) : ℚ :=
  (List.range m.S).foldr (fun s acc => max |V s - W s| acc) 0

/-- The `for iteration in range(max_iterations)` loop of
`evaluate_pi_infinite`: iterate `evalStep`, stopping early when the
maximum absolute change falls below the tolerance. -/
def evalLoop (m : MDPin) (pi : ℕ → ℕ) : ℕ → (ℕ → ℚ) → ℕ → ℚ
  | 0, V => V
  | f + 1, V =>
    let V' := evalStep m pi V
    if maxAbsDiff m V' V < m.tol then V' else evalLoop m pi f V'

/-- `evaluate_pi_infinite` of `policy_evaluation_infinite.py`: value of a
fixed deterministic policy, from the all-zero initial vector, with
iteration cap `fuel`. -/
def evaluate_pi_infinite (m : MDPin) (pi : ℕ → ℕ) (fuel : ℕ) : ℕ → ℚ :=
  evalLoop m pi fuel (fun _ => 0)

/-- One synchronous sweep of `evaluate_events_infinite`
(`E[s] = event_states[s] + gamma * np.dot(P[s, :, pi[s]], E_old)`). -/
def evStep (m : MDPin) (pi : ℕ → ℕ) (ev : ℕ → ℚ) (V : ℕ → ℚ) : ℕ → ℚ :=
  fun s => ev s + m.gamma * dotP m s (pi s) V

/-- The iteration loop of `evaluate_events_infinite`. -/
def evLoop (m : MDPin) (pi : ℕ → ℕ) (ev : ℕ → ℚ) : ℕ → (ℕ → ℚ) → ℕ → ℚ
  | 0, V => V
  | f + 1, V =>
    let V' := evStep m pi ev V
    if maxAbsDiff m V' V < m.tol then V' else evLoop m pi ev f V'

/-- `evaluate_events_infinite` of `policy_evaluation_infinite.py`:
discounted expected event count under policy `pi` for the event-indicator
vector `ev` (the reward field of `m` is unused by this routine). -/
def evaluate_events_infinite (m : MDPin) (pi : ℕ → ℕ) (ev : ℕ → ℚ)
    (fuel : ℕ) : ℕ → ℚ :=
  evLoop m pi ev fuel (fun _ => 0)

/-- `Q_values` of the improvement step: the list
`[Q(s,0), …, Q(s,A-1)]`. -/
def Qlist (m : MDPin) (V : ℕ → ℚ) (s : ℕ) : List ℚ :=
  (List.range m.A).map (Qval m V s)

/-- `np.argmax` on a list: index of the maximum value, first occurrence
winning ties, together with that maximum value. -/
def firstArgmax : List ℚ → ℕ × ℚ
  | [] => (0, 0)
  | [x] => (0, x)
  | x :: y :: ys =>
    let p := firstArgmax (y :: ys)
    if x < p.2 then (p.1 + 1, p.2) else (0, x)

/-- The greedy improvement step of `policy_improvement_infinite`:
`pi[s] = np.argmax(Q_values)`. -/
def improve (m : MDPin) (V : ℕ → ℚ) : ℕ → ℕ :=
  fun s => (firstArgmax (Qlist m V s)).1

/-- The `for iteration in range(max_iterations)` loop of
`policy_improvement_infinite`: evaluate the current policy (with the same
cap `cap` and tolerance), take the greedy policy of that value, stop when
the policy is unchanged (`np.array_equal`) or the cap is exhausted, and
return the last policy together with the value of the previous policy —
exactly what the source returns on both exit paths. -/
def piLoopAux (m : MDPin) (cap : ℕ) : ℕ → (ℕ → ℕ) → ((ℕ → ℕ) × (ℕ → ℚ))
  | 0, pi => (pi, fun _ => 0)
  | f + 1, pi =>
    let V := evaluate_pi_infinite m pi cap
    let pi' := improve m V
    if ((List.range m.S).all (fun s => pi' s == pi s) ∨ f = 0) then (pi', V)
    else piLoopAux m cap f pi'

/-- `policy_improvement_infinite` of `policy_evaluation_infinite.py`.
The source draws the initial policy from `np.random.randint`; it is taken
here as the explicit argument `pi0`. -/
def policy_improvement_infinite (m : MDPin) (cap : ℕ) (pi0 : ℕ → ℕ) :
    (ℕ → ℕ) × (ℕ → ℚ) :=
  piLoopAux m cap cap pi0

/-- `x >= c` under float semantics: false when `x` is `NaN` (`none`). -/
def oge (x : Option ℚ) (c : ℚ) : Bool :=
  match x with
  | some v => decide (c ≤ v)
  | none => false

/-- `x < c` under float semantics: false when `x` is `NaN` (`none`). -/
def olt (x : Option ℚ) (c : ℚ) : Bool :=
  match x with
  | some v => decide (v < c)
  | none => false

/-- `c - x`, propagating `NaN`. -/
def osub (c : ℚ) (x : Option ℚ) : Option ℚ :=
  x.map (fun v => c - v)

/-- `SBPreduc` of `sbp_reductions_drugtype.py`: SBP drop of one standard
generic dose at pressure `p`. -/
def SBPreduc (p : ℚ) : ℚ := 9.1 + 0.1 * (p - 154)

/-- `sbp_reductions_generic` of `sbp_reductions_drugtype.py`: cumulative
reduction of `trt` sequential standard generic doses; `np.nan` (here
`none`) for a level above 5. -/
def sbp_reductions_generic (trt : ℕ) (pre : ℚ) : Option ℚ :=
  let red1 := SBPreduc pre
  let red2 := red1 + SBPreduc (pre - red1)
  let red3 := red2 + SBPreduc (pre - red2)
  let red4 := red3 + SBPreduc (pre - red3)
  let red5 := red4 + SBPreduc (pre - red4)
  if trt = 0 then some 0
  else if trt = 1 then some red1
  else if trt = 2 then some red2
  else if trt = 3 then some red3
  else if trt = 4 then some red4
  else if trt = 5 then some red5
  else none

/-- Modelled from the spec (§4.1): `dbp_reductions_generic` of the missing
module `dbp_reductions_drugtype.py`, mirroring `sbp_reductions_generic`
with the per-dose DBP response `dDrop` supplied as a parameter. -/
def dbp_reductions_generic (dDrop : ℚ → ℚ) (trt : ℕ) (pre : ℚ) : Option ℚ :=
  let red1 := dDrop pre
  let red2 := red1 + dDrop (pre - red1)
  let red3 := red2 + dDrop (pre - red2)
  let red4 := red3 + dDrop (pre - red3)
  let red5 := red4 + dDrop (pre - red4)
  if trt = 0 then some 0
  else if trt = 1 then some red1
  else if trt = 2 then some red2
  else if trt = 3 then some red3
  else if trt = 4 then some red4
  else if trt = 5 then some red5
  else none

/-- `new_risk` applied to a possibly-`NaN` reduction (float `NaN`
propagates through the power and the product). -/
def new_risk_o (pw : ℚ → ℚ → ℚ) (sred : Option ℚ) (riskslope : ℕ → ℚ)
    (pretrtrisk : ℚ) (event : ℕ) : Option ℚ :=
  sred.map (fun v => new_risk pw v riskslope pretrtrisk event)

/-- The scalar inputs shared by the two guideline engines
(`aha_guideline_infinite`, `risk_policy_infinite`).  The pre-treatment
pressure vectors are passed separately.  `pw` and `dDrop` are the two
modelled parameters described at the top of the file. -/
structure GLin where
  pretrtrisk : ℕ → ℕ → ℚ
  targetrisk : ℚ
  targetsbp : ℚ
  targetdbp : ℚ
  targetdiff : ℚ
  sbpmin : ℚ
  dbpmin : ℚ
  riskslope : ℕ → ℚ
  numtrt : ℕ
  healthy : List ℕ
  pw : ℚ → ℚ → ℚ
  dDrop : ℚ → ℚ

/-- `post_trt_risk` of the guideline engines at the no-treatment start:
`new_risk(sbpreduc, riskslope, pretrtrisk[h,0], 0) +
 new_risk(sbpreduc, riskslope, pretrtrisk[h,1], 1)`
with `sbpreduc = sbp_reductions_generic(0, pretrtsbp[h])`. -/
def glRisk0 (g : GLin) (psbp : ℕ → ℚ) (h : ℕ) : Option ℚ :=
  let sred0 := sbp_reductions_generic 0 (psbp h)
  match new_risk_o g.pw sred0 g.riskslope (g.pretrtrisk h 0) 0,
        new_risk_o g.pw sred0 g.riskslope (g.pretrtrisk h 1) 1 with
  | some a, some b => some (a + b)
  | _, _ => none

/-- The first regime test of `aha_guideline_infinite` (line 40): high risk
or ASCVD history with stage-1 hypertension, or stage-2 hypertension within
20/10 mm Hg of target. -/
def aha_e1 (g : GLin) (psbp pdbp : ℕ → ℚ) (h : ℕ) : Bool :=
  let ps0 := osub (psbp h) (sbp_reductions_generic 0 (psbp h))
  let pd0 := osub (pdbp h) (dbp_reductions_generic g.dDrop 0 (pdbp h))
  ((oge (glRisk0 g psbp h) g.targetrisk || !(g.healthy.contains h)) &&
     (oge ps0 130 || oge pd0 80)) ||
  ((oge ps0 140 || oge pd0 90) &&
     (olt ps0 (g.targetsbp + 20) && olt pd0 (g.targetdbp + 10)))

/-- The second regime test of `aha_guideline_infinite` (line 68): stage-2
hypertension at least 20/10 mm Hg above target. -/
def aha_e2 (g : GLin) (psbp pdbp : ℕ → ℚ) (h : ℕ) : Bool :=
  let ps0 := osub (psbp h) (sbp_reductions_generic 0 (psbp h))
  let pd0 := osub (pdbp h) (dbp_reductions_generic g.dDrop 0 (pdbp h))
  oge ps0 (g.targetsbp + 20) || oge pd0 (g.targetdbp + 10)

/-- The post-treatment SBP of treatment level `trt`
(`post_trt_sbp = pretrtsbp[h] - sbp_reductions_generic(trt, pretrtsbp[h])`). -/
def postS (psbp : ℕ → ℚ) (h trt : ℕ) : Option ℚ :=
  osub (psbp h) (sbp_reductions_generic trt (psbp h))

/-- The post-treatment DBP of treatment level `trt`. -/
def postD (g : GLin) (pdbp : ℕ → ℚ) (h trt : ℕ) : Option ℚ :=
  osub (pdbp h) (dbp_reductions_generic g.dDrop trt (pdbp h))

/-- The feasibility test shared by the monthly loops of both engines:
`(post_trt_sbp < sbpmin or sbpreduc < 0) or (post_trt_dbp < dbpmin or
dbpreduc < 0)` (every comparison is false on a `NaN`). -/
def glInfeas (g : GLin) (psbp pdbp : ℕ → ℚ) (h trt : ℕ) : Bool :=
  (olt (postS psbp h trt) g.sbpmin || olt (sbp_reductions_generic trt (psbp h)) 0) ||
  (olt (postD g pdbp h trt) g.dbpmin || olt (dbp_reductions_generic g.dDrop trt (pdbp h)) 0)

/-- The attempted escalation of the plain monthly loop:
`past_trt + 1`, capped at `numtrt`. -/
def titrate_new (numtrt past : ℕ) : ℕ :=
  if past + 1 > numtrt then past else past + 1

/-- The attempted escalation of the stage-2 loop of
`aha_guideline_infinite`: capped at `numtrt`, with a minimum of two
agents. -/
def titrate2_new (numtrt past : ℕ) : ℕ :=
  if past + 1 > numtrt then past
  else if past < 2 then 2
  else past + 1

/-- The `past_trt` after one month of the plain escalate/accept loop:
the escalation is kept only if feasible. -/
def step1_past (g : GLin) (psbp pdbp : ℕ → ℚ) (h past : ℕ) : ℕ :=
  if glInfeas g psbp pdbp h (titrate_new g.numtrt past) then past
  else titrate_new g.numtrt past

/-- The `past_trt` after one month of the stage-2 loop of
`aha_guideline_infinite`: an infeasible escalation falls back to one
level less, itself kept only if feasible. -/
def step2_past (g : GLin) (psbp pdbp : ℕ → ℚ) (h past : ℕ) : ℕ :=
  if glInfeas g psbp pdbp h (titrate2_new g.numtrt past) then
    (if glInfeas g psbp pdbp h (titrate2_new g.numtrt past - 1) then past
     else titrate2_new g.numtrt past - 1)
  else titrate2_new g.numtrt past

/-- The treatment level whose post-treatment pressures the stage-2 loop
leaves in `post_trt_sbp`/`post_trt_dbp` after one month: the fallback
level if the escalation was rejected (the source recomputes the pressures
for the fallback before testing it and does not restore them), otherwise
the escalation. -/
def step2_tried (g : GLin) (psbp pdbp : ℕ → ℚ) (h past : ℕ) : ℕ :=
  if glInfeas g psbp pdbp h (titrate2_new g.numtrt past) then
    titrate2_new g.numtrt past - 1
  else titrate2_new g.numtrt past

/-- The monthly loop of the first regime of `aha_guideline_infinite`
(lines 44–66).  Loop state: remaining months, current `past_trt`, the
running `post_trt_sbp`/`post_trt_dbp` (the values of the last *attempted*
treatment — the source does not restore them when an escalation is
rejected), and the current `policy[h]` (`none` = still the `NaN` the
output array was initialised with). -/
def aha_loop1 (g : GLin) (psbp pdbp : ℕ → ℚ) (h : ℕ) :
    ℕ → ℕ → Option ℚ → Option ℚ → Option ℕ → Option ℕ
  | 0, _, _, _, pol => pol
  | m + 1, past, cs, cd, pol =>
    if oge cs g.targetsbp || oge cd g.targetdbp then
      aha_loop1 g psbp pdbp h m (step1_past g psbp pdbp h past)
        (postS psbp h (titrate_new g.numtrt past))
        (postD g pdbp h (titrate_new g.numtrt past))
        (some (step1_past g psbp pdbp h past))
    else pol

/-- The monthly loop of the second regime of `aha_guideline_infinite`
(lines 69–107). -/
def aha_loop2 (g : GLin) (psbp pdbp : ℕ → ℚ) (h : ℕ) :
    ℕ → ℕ → Option ℚ → Option ℚ → Option ℕ → Option ℕ
  | 0, _, _, _, pol => pol
  | m + 1, past, cs, cd, pol =>
    if oge cs g.targetsbp || oge cd g.targetdbp then
      aha_loop2 g psbp pdbp h m (step2_past g psbp pdbp h past)
        (postS psbp h (step2_tried g psbp pdbp h past))
        (postD g pdbp h (step2_tried g psbp pdbp h past))
        (some (step2_past g psbp pdbp h past))
    else pol

/-- `aha_guideline_infinite` of `aha_2017_guideline_infinite.py` for one
health state: classify into one of the three regimes and run at most 12
monthly escalation steps; `none` is the `NaN` the output array was
initialised with. -/
def aha_guideline_infinite (g : GLin) (psbp pdbp : ℕ → ℚ) (h : ℕ) : Option ℕ :=
  if aha_e1 g psbp pdbp h then
    aha_loop1 g psbp pdbp h 12 0 (postS psbp h 0) (postD g pdbp h 0) none
  else if aha_e2 g psbp pdbp h then
    aha_loop2 g psbp pdbp h 12 0 (postS psbp h 0) (postD g pdbp h 0) none
  else some 0

/-- The monthly loop of `risk_policy_infinite` (lines 40–61).  The loop
condition re-reads `post_trt_risk`, which the loop body never recomputes,
so it is carried as the fixed value `risk0`.  The escalate/accept rule is
that of `aha_loop1`. -/
def risk_loop (g : GLin) (psbp pdbp : ℕ → ℚ) (h : ℕ) (risk0 : Option ℚ) :
    ℕ → ℕ → Option ℕ → Option ℕ
  | 0, _, pol => pol
  | m + 1, past, pol =>
    if oge risk0 (g.targetrisk - g.targetdiff) then
      risk_loop g psbp pdbp h risk0 m (step1_past g psbp pdbp h past)
        (some (step1_past g psbp pdbp h past))
    else pol

/-- `risk_policy_infinite` of `risk_based_policy_infinite.py` for one
health state. -/
def risk_policy_infinite (g : GLin) (psbp pdbp : ℕ → ℚ) (h : ℕ) : Option ℕ :=
  let risk0 := glRisk0 g psbp h
  if oge risk0 (g.targetrisk - g.targetdiff) then
    risk_loop g psbp pdbp h risk0 12 0 none
  else some 0

/-- A concrete `TP_infinite` input on which every action is infeasible for
every state: pre-treatment pressure 200/100 exceeds the bounds (action 0
infeasible) and the single-drug reduction 13.1 leaves 186.9, below
`sbpmin = 190` (action 1 infeasible). -/
def exC2 : TPin :=
  { periodrisk := fun _ _ => 0, chddeath := 0, strokedeath := 0, alldeath := 0,
    riskslope := fun _ => 1, pretrtsbp := fun _ => 200, pretrtdbp := fun _ => 100,
    sbpmin := 190, dbpmin := 0, sbpmax := 150, dbpmax := 90,
    alldrugs := [[], [Drug.ACE]], pw := fun _ _ => 0, dcomb := fun _ _ => 0 }

/-- A concrete `TP_infinite` input with pre-treatment SBP 50: one
ACE-inhibitor dose has a negative computed reduction
(8.5 + 0.1·(50−154) = −1.9) while every bound check of the source
passes. -/
def exC4 : TPin :=
  { periodrisk := fun _ _ => 0, chddeath := 0, strokedeath := 0, alldeath := 0,
    riskslope := fun _ => 1, pretrtsbp := fun _ => 50, pretrtdbp := fun _ => 80,
    sbpmin := 0, dbpmin := 0, sbpmax := 150, dbpmax := 90,
    alldrugs := [[], [Drug.ACE]], pw := fun _ _ => 0, dcomb := fun _ _ => 5 }

/-- A concrete `TP_infinite` input with zero event risk for every state
and event but a positive non-CVD death rate `alldeath = 1/2`. -/
def exC5 : TPin :=
  { periodrisk := fun _ _ => 0, chddeath := 1/4, strokedeath := 1/3, alldeath := 1/2,
    riskslope := fun _ => 1, pretrtsbp := fun _ => 140, pretrtdbp := fun _ => 80,
    sbpmin := 0, dbpmin := 0, sbpmax := 150, dbpmax := 90,
    alldrugs := [[], [Drug.ACE]], pw := fun _ _ => 1, dcomb := fun _ _ => 0 }

/-- A concrete `TP_infinite` input with non-trivial risks and rates, used
to instantiate the row-distribution invariant. -/
def exC1 : TPin :=
  { periodrisk := fun _ _ => 1/100, chddeath := 1/10, strokedeath := 1/5, alldeath := 1/50,
    riskslope := fun _ => 1, pretrtsbp := fun _ => 154, pretrtdbp := fun _ => 90,
    sbpmin := 100, dbpmin := 60, sbpmax := 150, dbpmax := 90,
    alldrugs := [[], [Drug.ACE]], pw := fun _ _ => 1, dcomb := fun _ _ => 3 }

/-- A concrete `risk_policy_infinite` input: total pre-treatment risk
0.12 is above the threshold 0.1, and the modelled power halves the risk
under any positive reduction, so one agent already brings the risk to
0.06, below the threshold. -/
def exC3 : GLin :=
  { pretrtrisk := fun _ _ => 3/50, targetrisk := 1/10, targetsbp := 0, targetdbp := 0,
    targetdiff := 0, sbpmin := 0, dbpmin := 0, riskslope := fun _ => 1,
    numtrt := 5, healthy := [],
    pw := fun _ x => if x ≤ 0 then 1 else 1/2, dDrop := fun _ => 2 }

/-- A concrete `aha_guideline_infinite` input with targets 140/90: a
non-healthy state with pressures 135/70 satisfies the first regime test
(SBP ≥ 130) while both pressures are strictly below target, so the
monthly loop body never runs. -/
def exC10 : GLin :=
  { pretrtrisk := fun _ _ => 0, targetrisk := 1, targetsbp := 140, targetdbp := 90,
    targetdiff := 0, sbpmin := 0, dbpmin := 0, riskslope := fun _ => 1,
    numtrt := 5, healthy := [],
    pw := fun _ _ => 0, dDrop := fun _ => 0 }

/-- A concrete `aha_guideline_infinite` input (targets 1000/69, one
treatment level, inert DBP response) on which raising DBP from 79 to 80
moves the state from the stage-2 regime (which forces two agents) into
the first regime (which escalates one level at a time). -/
def exC9 : GLin :=
  { pretrtrisk := fun _ _ => 0, targetrisk := 0, targetsbp := 1000, targetdbp := 69,
    targetdiff := 0, sbpmin := 0, dbpmin := 0, riskslope := fun _ => 1,
    numtrt := 1, healthy := [],
    pw := fun _ _ => 1, dDrop := fun _ => 0 }

/-- A concrete `aha_guideline_infinite` input with the standard 130/80
targets, used to instantiate the on-target monotonicity theorem. -/
def exC9w : GLin :=
  { pretrtrisk := fun _ _ => 0, targetrisk := 1, targetsbp := 130, targetdbp := 80,
    targetdiff := 0, sbpmin := 100, dbpmin := 60, riskslope := fun _ => 1,
    numtrt := 5, healthy := [0],
    pw := fun _ _ => 0, dDrop := fun _ => 5 }

/-- A one-state, one-action MDP used to instantiate the policy-iteration
theorem. -/
def exMDP : MDPin :=
  { S := 1, A := 1, P := fun _ _ _ => 1, r := fun _ _ => 0, gamma := 1/2, tol := 1 }

/-- C2 (code bug): after the full sweep on `exC2`, state 0 has every
action infeasible and is left that way, while the forced-feasible
fallback fires only for state 9 — the fallback check of lines 116–118
sits at the treatment-loop level where `h` holds the leftover value 9 of
the completed state loop. -/
theorem TP_fallback_state9_only :
    TP_feasible exC2 0 0 = some 0 ∧ TP_feasible exC2 0 1 = some 0 ∧
    TP_feasible exC2 9 0 = some 1 ∧ TP_feasible exC2 9 1 = some 0 := by
  norm_num [TP_feasible, feasAux, feasible0, sbp_reductions, dbp_reductions, applyDoses,
    thiazides, betablock, aceinhibitors, arb, calciumcb, exC2,
    List.range_succ, List.count_cons, List.getD]

set_option maxRecDepth 10000 in
set_option maxHeartbeats 2000000 in
/-- C3 (code bug): on `exC3` the risk of one agent (reduction 9.1 at
SBP 154), computed by the source's own `new_risk`, is 0.06, strictly below
the threshold 0.1 — yet `risk_policy_infinite` escalates through all 12
months and returns the cap 5, because `post_trt_risk` is never recomputed
inside the monthly loop and so the loop never exits early. -/
theorem risk_policy_no_early_exit :
    risk_policy_infinite exC3 (fun _ => 154) (fun _ => 90) 0 = some 5 ∧
    sbp_reductions_generic 1 154 = some (91/10) ∧
    new_risk exC3.pw (91/10) exC3.riskslope (exC3.pretrtrisk 0 0) 0 +
      new_risk exC3.pw (91/10) exC3.riskslope (exC3.pretrtrisk 0 1) 1 <
      exC3.targetrisk - exC3.targetdiff := by
  refine ⟨?_, ?_, ?_⟩
  · norm_num [risk_policy_infinite, risk_loop, glRisk0, new_risk_o, new_risk,
      step1_past, glInfeas, titrate_new, postS, postD,
      sbp_reductions_generic, dbp_reductions_generic, SBPreduc, oge, olt, osub, exC3]
  · norm_num [sbp_reductions_generic, SBPreduc]
  · norm_num [new_risk, exC3]

set_option maxRecDepth 10000 in
set_option maxHeartbeats 2000000 in
/-- C10 (code bug): on `exC10`, state 0 enters the first regime
(SBP 135 ≥ 130, no ASCVD-free classification), but both pressures are
already strictly below the 140/90 targets, so the monthly loop body never
executes and the returned policy entry is still the `NaN` the output
array was initialised with. -/
theorem aha_guideline_nan :
    aha_e1 exC10 (fun _ => 135) (fun _ => 70) 0 = true ∧
    aha_guideline_infinite exC10 (fun _ => 135) (fun _ => 70) 0 = none := by
  constructor
  · norm_num [aha_e1, glRisk0, new_risk_o, new_risk, sbp_reductions_generic,
      dbp_reductions_generic, SBPreduc, oge, olt, osub, exC10]
  · norm_num [aha_guideline_infinite, aha_e1, aha_e2, aha_loop1, aha_loop2, glRisk0,
      step1_past, step2_past, step2_tried, glInfeas, titrate_new, titrate2_new, postS, postD,
      new_risk_o, new_risk, sbp_reductions_generic, dbp_reductions_generic, SBPreduc,
      oge, olt, osub, exC10]

set_option maxRecDepth 10000 in
set_option maxHeartbeats 2000000 in
/-- C9 (counterexample): on `exC9`, raising the pre-treatment pressures
componentwise from (100, 79) to (100, 80) lowers the treatment intensity
returned by the Clinical-Guideline Engine from 2 to 1: the lower pair
falls in the stage-2 regime, whose loop starts at a minimum of two
agents, while the higher pair falls in the first regime, whose loop
escalates one level at a time and stops at 1. -/
theorem aha_monotone_counterexample :
    aha_guideline_infinite exC9 (fun _ => 100) (fun _ => 79) 0 = some 2 ∧
    aha_guideline_infinite exC9 (fun _ => 100) (fun _ => 80) 0 = some 1 ∧
    (100 : ℚ) ≤ 100 ∧ (79 : ℚ) ≤ 80 := by
  refine ⟨?_, ?_, by norm_num, by norm_num⟩
  · norm_num [aha_guideline_infinite, aha_e1, aha_e2, aha_loop1, aha_loop2, glRisk0,
      step1_past, step2_past, step2_tried, glInfeas, titrate_new, titrate2_new, postS, postD,
      new_risk_o, new_risk, sbp_reductions_generic, dbp_reductions_generic, SBPreduc,
      oge, olt, osub, exC9]
  · norm_num [aha_guideline_infinite, aha_e1, aha_e2, aha_loop1, aha_loop2, glRisk0,
      step1_past, step2_past, step2_tried, glInfeas, titrate_new, titrate2_new, postS, postD,
      new_risk_o, new_risk, sbp_reductions_generic, dbp_reductions_generic, SBPreduc,
      oge, olt, osub, exC9]

/-- C4 (counterexample): on `exC4`, action 1 is marked feasible by the
bound checks even though its computed SBP reduction is negative — the
source tests `pretrtsbp[h] < 0`, not `sbpreduc < 0`. -/
theorem feasible_iff_counterexample :
    feasible0 exC4 0 1 = 1 ∧ sbp_reductions 1 (exC4.pretrtsbp 0) exC4.alldrugs < 0 := by
  constructor <;>
    norm_num [feasible0, sbp_reductions, dbp_reductions, applyDoses,
      thiazides, betablock, aceinhibitors, arb, calciumcb, exC4,
      List.count_cons, List.getD]

/-- C5 (counterexample): on `exC5` every period risk is zero, yet the
no-treatment row of the healthy state places probability 1/2 on the
non-CVD-death state 6 and only 1/2 on the healthy state's own alternate
target 0 — the `alldeath` term is not multiplied by an event risk and
does not vanish. -/
theorem TP_zero_risk_counterexample :
    (∀ h k, exC5.periodrisk h k = 0) ∧
    TP_ptrans exC5 0 0 0 = 1/2 ∧ TP_ptrans exC5 0 6 0 = 1/2 := by
  refine ⟨fun h k => rfl, ?_⟩
  constructor <;>
    norm_num [TP_ptrans, liveRow, TPrisk, TPsbpreduc, new_risk, alternateOf, exC5]

lemma evStep_eq_evalStep (m : MDPin) (pi : ℕ → ℕ) (ev : ℕ → ℚ) (V : ℕ → ℚ) :
    evStep m pi ev V = evalStep { m with r := fun s _ => ev s } pi V := by
  funext s
  rfl

lemma evLoop_eq_evalLoop (m : MDPin) (pi : ℕ → ℕ) (ev : ℕ → ℚ) :
    ∀ (f : ℕ) (V : ℕ → ℚ),
      evLoop m pi ev f V = evalLoop { m with r := fun s _ => ev s } pi f V := by
  intro f
  induction f with
  | zero => intro V; rfl
  | succ n ih =>
    intro V
    have hst : evalStep { m with r := fun s _ => ev s } pi V = evStep m pi ev V :=
      (evStep_eq_evalStep m pi ev V).symm
    have hmd : maxAbsDiff { m with r := fun s _ => ev s } (evStep m pi ev V) V =
        maxAbsDiff m (evStep m pi ev V) V := rfl
    have htol : ({ m with r := fun s _ => ev s } : MDPin).tol = m.tol := rfl
    rw [evLoop, evalLoop, hst, hmd, htol]
    by_cases hc : maxAbsDiff m (evStep m pi ev V) V < m.tol
    · rw [if_pos hc, if_pos hc]
    · rw [if_neg hc, if_neg hc, ih]

/-- C8: for every policy, transition tensor, event-indicator vector,
discount factor, iteration cap and tolerance, `evaluate_events_infinite`
returns exactly the vector `evaluate_pi_infinite` returns on the
action-independent reward matrix `r_e[s, a] = e[s]` — the expected-event
evaluation is a specialization of policy evaluation. -/
theorem evaluate_events_is_evaluate_pi (m : MDPin) (pi : ℕ → ℕ) (ev : ℕ → ℚ)
    (fuel : ℕ) :
    evaluate_events_infinite m pi ev fuel =
      evaluate_pi_infinite { m with r := fun s _ => ev s } pi fuel := by
  rw [evaluate_events_infinite, evaluate_pi_infinite, evLoop_eq_evalLoop]

/-- C4 (amended): for every action `j > 0` the bound checks mark `(h, j)`
feasible exactly when the post-treatment SBP is at least `sbpmin`, the
*pre-treatment* SBP is non-negative, the post-treatment DBP is at least
`dbpmin` and the computed DBP reduction is non-negative; and action 0 is
marked infeasible exactly when the pre-treatment SBP exceeds `sbpmax` or
the pre-treatment DBP exceeds `dbpmax`. -/
theorem feasible_iff_bounds (t : TPin) (h j : ℕ) (hj : 0 < j) :
    (feasible0 t h j = 1 ↔
      (t.sbpmin ≤ t.pretrtsbp h - sbp_reductions j (t.pretrtsbp h) t.alldrugs ∧
       0 ≤ t.pretrtsbp h ∧
       t.dbpmin ≤ t.pretrtdbp h - dbp_reductions t.dcomb j (t.pretrtdbp h) t.alldrugs ∧
       0 ≤ dbp_reductions t.dcomb j (t.pretrtdbp h) t.alldrugs)) ∧
    (feasible0 t h 0 = 0 ↔ (t.pretrtsbp h > t.sbpmax ∨ t.pretrtdbp h > t.dbpmax)) := by
  constructor
  · rw [feasible0, if_neg hj.ne']
    dsimp only
    split_ifs with hc
    · simp only [show (0 : ℚ) ≠ 1 by norm_num, false_iff]
      push_neg
      intro h1 h2 h3
      rcases hc with (hc | hc) | (hc | hc) <;> [linarith; linarith; linarith; linarith]
    · simp only [eq_self_iff_true, true_iff]
      push_neg at hc
      exact ⟨by linarith [hc.1.1], by linarith [hc.1.2], by linarith [hc.2.1],
        by linarith [hc.2.2]⟩
  · rw [feasible0, if_pos rfl]
    split_ifs with hc
    · simpa using hc
    · simpa using hc

/-- C4 (witness): the amended feasibility characterisation instantiated
on `exC4` at action 1. -/
theorem feasible_iff_bounds_witness :
    0 < 1 ∧
    ((feasible0 exC4 0 1 = 1 ↔
      (exC4.sbpmin ≤ exC4.pretrtsbp 0 - sbp_reductions 1 (exC4.pretrtsbp 0) exC4.alldrugs ∧
       0 ≤ exC4.pretrtsbp 0 ∧
       exC4.dbpmin ≤ exC4.pretrtdbp 0 - dbp_reductions exC4.dcomb 1 (exC4.pretrtdbp 0) exC4.alldrugs ∧
       0 ≤ dbp_reductions exC4.dcomb 1 (exC4.pretrtdbp 0) exC4.alldrugs)) ∧
     (feasible0 exC4 0 0 = 0 ↔ (exC4.pretrtsbp 0 > exC4.sbpmax ∨ exC4.pretrtdbp 0 > exC4.dbpmax))) :=
  ⟨by norm_num, feasible_iff_bounds exC4 0 1 (by norm_num)⟩

lemma alternateOf_lt (h : ℕ) : alternateOf h < 4 := by
  rw [alternateOf]
  split_ifs <;> omega

/-- C5 (amended): with zero event risk for every state and event, the
transition row of every live state under every action places probability
`min 1 alldeath` on the non-CVD-death state 6 and the remaining
`1 − min 1 alldeath` on the state's own alternate target; in particular
it collapses to probability 1 on the alternate state exactly when
`alldeath = 0`. -/
theorem TP_zero_risk_rows (t : TPin) (hz : ∀ h k, t.periodrisk h k = 0)
    (h : ℕ) (hh : h < 6) (j s : ℕ) :
    TP_ptrans t h s j =
      if s = 6 then min 1 t.alldeath
      else if s = alternateOf h then 1 - min 1 t.alldeath else 0 := by
  have hnd : ¬(h = 6 ∨ h = 7 ∨ h = 8 ∨ h = 9) := by omega
  have hr : ∀ k, TPrisk t h k j = 0 := by
    intro k
    rw [TPrisk, new_risk, hz, mul_zero]
  have halt := alternateOf_lt h
  have h10 : (1 : ℚ) ⊓ 0 = 0 := by norm_num [min_def]
  rw [TP_ptrans, if_neg hnd, liveRow]
  simp only [hr, mul_zero, h10, add_zero, zero_add]
  rw [if_neg (by norm_num : ¬(1 : ℚ) ≤ 0)]
  by_cases had : (1 : ℚ) ≤ 1 ⊓ t.alldeath
  · have h1 : (1 : ℚ) ⊓ t.alldeath = 1 := le_antisymm (min_le_left _ _) had
    rw [if_pos had]
    rw [h1]
    split_ifs <;> first | omega | norm_num
  · rw [if_neg had, if_neg had, if_neg had]
    split_ifs <;> first | omega | norm_num

/-- C5 (witness): the amended zero-risk row shape instantiated on `exC5`
for the healthy state under action 0. -/
theorem TP_zero_risk_rows_witness :
    (∀ h k, exC5.periodrisk h k = 0) ∧ 0 < 6 ∧
    TP_ptrans exC5 0 6 0 =
      (if 6 = 6 then min 1 exC5.alldeath
       else if 6 = alternateOf 0 then 1 - min 1 exC5.alldeath else 0) :=
  ⟨fun _ _ => rfl, by norm_num, TP_zero_risk_rows exC5 (fun _ _ => rfl) 0 (by norm_num) 0 6⟩

lemma sum_range_ten (f : ℕ → ℚ) :
    Finset.sum (Finset.range 10) f =
      f 0 + f 1 + f 2 + f 3 + f 4 + f 5 + f 6 + f 7 + f 8 + f 9 := by
  rw [Finset.sum_range_succ, Finset.sum_range_succ, Finset.sum_range_succ,
    Finset.sum_range_succ, Finset.sum_range_succ, Finset.sum_range_succ,
    Finset.sum_range_succ, Finset.sum_range_succ, Finset.sum_range_succ,
    Finset.sum_range_succ, Finset.sum_range_zero, zero_add]

set_option maxHeartbeats 1000000 in
lemma liveRow_nonneg (sd cd ad r0 r1 : ℚ) (alt : ℕ)
    (hr0 : 0 ≤ r0) (hr1 : 0 ≤ r1)
    (hsd0 : 0 ≤ sd) (hsd1 : sd ≤ 1) (hcd0 : 0 ≤ cd) (hcd1 : cd ≤ 1)
    (had0 : 0 ≤ ad) (s : ℕ) :
    0 ≤ liveRow sd cd ad r0 r1 alt s := by
  have h8a : 0 ≤ min 1 (sd * r1) := le_min (by norm_num) (mul_nonneg hsd0 hr1)
  have h8b : min 1 (sd * r1) ≤ 1 := min_le_left _ _
  have h7a : 0 ≤ min 1 (cd * r0) := le_min (by norm_num) (mul_nonneg hcd0 hr0)
  have h7b : min 1 (cd * r0) ≤ 1 := min_le_left _ _
  have h6a : 0 ≤ min 1 ad := le_min (by norm_num) had0
  have h5a : 0 ≤ min 1 ((1 - sd) * r1) :=
    le_min (by norm_num) (mul_nonneg (by linarith) hr1)
  have h4a : 0 ≤ min 1 ((1 - cd) * r0) :=
    le_min (by norm_num) (mul_nonneg (by linarith) hr0)
  simp only [liveRow]
  by_cases hA : (1 : ℚ) ≤ 1 ⊓ (sd * r1) + 1 ⊓ (cd * r0)
  · rw [if_pos hA]
    split_ifs <;> linarith
  · rw [if_neg hA]
    by_cases hB : (1 : ℚ) ≤ 1 ⊓ (sd * r1) + 1 ⊓ (cd * r0) + 1 ⊓ ad
    · rw [if_pos hB]
      split_ifs <;> linarith
    · rw [if_neg hB]
      by_cases hC : (1 : ℚ) ≤ 1 ⊓ (sd * r1) + 1 ⊓ (cd * r0) + 1 ⊓ ad + 1 ⊓ ((1 - sd) * r1)
      · rw [if_pos hC]
        split_ifs <;> linarith
      · rw [if_neg hC]
        by_cases hD : (1 : ℚ) ≤
            1 ⊓ (sd * r1) + 1 ⊓ (cd * r0) + 1 ⊓ ad + 1 ⊓ ((1 - sd) * r1) + 1 ⊓ ((1 - cd) * r0)
        · rw [if_pos hD]
          split_ifs <;> linarith
        · rw [if_neg hD]
          split_ifs <;> linarith

set_option maxHeartbeats 2000000 in
lemma liveRow_sum (sd cd ad r0 r1 : ℚ) (alt : ℕ) (halt : alt < 4) :
    Finset.sum (Finset.range 10) (fun s => liveRow sd cd ad r0 r1 alt s) = 1 := by
  rw [sum_range_ten]
  simp only [liveRow]
  by_cases hA : (1 : ℚ) ≤ 1 ⊓ (sd * r1) + 1 ⊓ (cd * r0)
  · rw [if_pos hA]
    norm_num
  · rw [if_neg hA]
    by_cases hB : (1 : ℚ) ≤ 1 ⊓ (sd * r1) + 1 ⊓ (cd * r0) + 1 ⊓ ad
    · rw [if_pos hB]
      norm_num
      ring
    · rw [if_neg hB]
      by_cases hC : (1 : ℚ) ≤ 1 ⊓ (sd * r1) + 1 ⊓ (cd * r0) + 1 ⊓ ad + 1 ⊓ ((1 - sd) * r1)
      · rw [if_pos hC]
        norm_num
        ring
      · rw [if_neg hC]
        by_cases hD : (1 : ℚ) ≤
            1 ⊓ (sd * r1) + 1 ⊓ (cd * r0) + 1 ⊓ ad + 1 ⊓ ((1 - sd) * r1) + 1 ⊓ ((1 - cd) * r0)
        · rw [if_pos hD]
          norm_num
          ring
        · rw [if_neg hD]
          interval_cases alt <;> norm_num <;> ring

/-- C1: under the stated preconditions (period risks and the three death
rates in [0, 1], and a non-negative power model), every row of the
transition tensor built by `TP_infinite` is a probability distribution:
all entries are non-negative and they sum to exactly 1, in every branch
of the priority-ordered clipped allocation. -/
theorem TP_row_distribution (t : TPin)
    (hper : ∀ h k, 0 ≤ t.periodrisk h k ∧ t.periodrisk h k ≤ 1)
    (hcd : 0 ≤ t.chddeath ∧ t.chddeath ≤ 1)
    (hsd : 0 ≤ t.strokedeath ∧ t.strokedeath ≤ 1)
    (had : 0 ≤ t.alldeath ∧ t.alldeath ≤ 1)
    (hpw : ∀ a b, 0 ≤ t.pw a b)
    (h j : ℕ) (hh : h < 10) (hj : j < t.alldrugs.length) :
    (∀ s, 0 ≤ TP_ptrans t h s j) ∧
    Finset.sum (Finset.range 10) (fun s => TP_ptrans t h s j) = 1 := by
  have hrisk : ∀ k, 0 ≤ TPrisk t h k j := by
    intro k
    rw [TPrisk, new_risk]
    exact mul_nonneg (hpw _ _) (hper h k).1
  by_cases hdead : h = 6 ∨ h = 7 ∨ h = 8 ∨ h = 9
  · constructor
    · intro s
      rw [TP_ptrans, if_pos hdead]
      split_ifs <;> norm_num
    · simp only [TP_ptrans, if_pos hdead]
      rw [sum_range_ten]
      norm_num
  · constructor
    · intro s
      rw [TP_ptrans, if_neg hdead]
      exact liveRow_nonneg t.strokedeath t.chddeath t.alldeath
        (TPrisk t h 0 j) (TPrisk t h 1 j) (alternateOf h)
        (hrisk 0) (hrisk 1) hsd.1 hsd.2 hcd.1 hcd.2 had.1 s
    · simp only [TP_ptrans, if_neg hdead]
      exact liveRow_sum t.strokedeath t.chddeath t.alldeath
        (TPrisk t h 0 j) (TPrisk t h 1 j) (alternateOf h) (alternateOf_lt h)

/-- C1 (witness): the row-distribution invariant instantiated on `exC1`
for the healthy state under action 1. -/
theorem TP_row_distribution_witness :
    0 < (10 : ℕ) ∧ 1 < exC1.alldrugs.length ∧
    Finset.sum (Finset.range 10) (fun s => TP_ptrans exC1 0 s 1) = 1 :=
  ⟨by norm_num, by norm_num [exC1],
    (TP_row_distribution exC1 (fun h k => by norm_num [exC1]) (by norm_num [exC1])
      (by norm_num [exC1]) (by norm_num [exC1]) (fun a b => by norm_num [exC1])
      0 1 (by norm_num) (by norm_num [exC1])).2⟩

lemma firstArgmax_lt (l : List ℚ) (hl : l ≠ []) : (firstArgmax l).1 < l.length := by
  induction l with
  | nil => exact absurd rfl hl
  | cons x xs ih =>
    cases xs with
    | nil => simp [firstArgmax]
    | cons y ys =>
      rw [firstArgmax]
      split_ifs with hx
      · have := ih (by simp)
        simp only [List.length_cons] at this ⊢
        omega
      · simp

lemma firstArgmax_getD (l : List ℚ) (hl : l ≠ []) :
    l.getD (firstArgmax l).1 0 = (firstArgmax l).2 := by
  induction l with
  | nil => exact absurd rfl hl
  | cons x xs ih =>
    cases xs with
    | nil => simp [firstArgmax]
    | cons y ys =>
      rw [firstArgmax]
      split_ifs with hx
      · simpa using ih (by simp)
      · simp

lemma firstArgmax_ge (l : List ℚ) : ∀ i, i < l.length → l.getD i 0 ≤ (firstArgmax l).2 := by
  induction l with
  | nil => intro i hi; simp at hi
  | cons x xs ih =>
    cases xs with
    | nil =>
      intro i hi
      simp only [List.length_cons, List.length_nil] at hi
      have hi0 : i = 0 := by omega
      subst hi0
      simp [firstArgmax]
    | cons y ys =>
      intro i hi
      rw [firstArgmax]
      split_ifs with hx
      · cases i with
        | zero => simpa using le_of_lt hx
        | succ i' =>
          have := ih i' (by simpa using Nat.lt_of_succ_lt_succ hi)
          simpa using this
      · cases i with
        | zero => simp
        | succ i' =>
          have h1 := ih i' (by simpa using Nat.lt_of_succ_lt_succ hi)
          have h2 : (firstArgmax (y :: ys)).2 ≤ x := le_of_not_lt hx
          simp only [List.getD_cons_succ]
          exact le_trans h1 h2

lemma firstArgmax_first (l : List ℚ) :
    ∀ i, i < (firstArgmax l).1 → l.getD i 0 < (firstArgmax l).2 := by
  induction l with
  | nil => intro i hi; simp [firstArgmax] at hi
  | cons x xs ih =>
    cases xs with
    | nil => intro i hi; simp [firstArgmax] at hi
    | cons y ys =>
      intro i hi
      rw [firstArgmax] at hi ⊢
      split_ifs at hi ⊢ with hx
      · cases i with
        | zero => simpa using hx
        | succ i' =>
          have := ih i' (by omega)
          simpa using this
      · simp at hi

lemma Qlist_length (m : MDPin) (V : ℕ → ℚ) (s : ℕ) : (Qlist m V s).length = m.A := by
  simp [Qlist]

lemma Qlist_getD (m : MDPin) (V : ℕ → ℚ) (s a : ℕ) (ha : a < m.A) :
    (Qlist m V s).getD a 0 = Qval m V s a := by
  have hlen : a < (Qlist m V s).length := by rw [Qlist_length]; exact ha
  rw [List.getD_eq_getElem (Qlist m V s) 0 hlen]
  simp [Qlist]

lemma piLoopAux_spec (m : MDPin) (cap : ℕ) :
    ∀ (f : ℕ) (pi : ℕ → ℕ), 0 < f →
      ∃ V, piLoopAux m cap f pi = (improve m V, V) := by
  intro f
  induction f with
  | zero => intro pi h; exact absurd h (lt_irrefl 0)
  | succ n ih =>
    intro pi _
    rw [piLoopAux]
    split_ifs with hc
    · exact ⟨evaluate_pi_infinite m pi cap, rfl⟩
    · have hn : 0 < n := by
        rcases Nat.eq_zero_or_pos n with h0 | h0
        · exact absurd (Or.inr h0) hc
        · exact h0
      exact ih _ hn

/-- C6: `policy_improvement_infinite` alternates policy evaluation with a
greedy improvement step; the returned policy is, at every state, the
`np.argmax` (lowest index winning ties) of the state-action values under
the returned value function — so no state has a strictly better action
under the converged value function, every action index returned is valid,
and every lower-indexed action is strictly worse. -/
theorem policy_improvement_greedy (m : MDPin) (cap : ℕ) (pi0 : ℕ → ℕ)
    (hcap : 0 < cap) (hA : 0 < m.A) (s a : ℕ) (hs : s < m.S) (ha : a < m.A) :
    Qval m (policy_improvement_infinite m cap pi0).2 s a ≤
      Qval m (policy_improvement_infinite m cap pi0).2 s
        ((policy_improvement_infinite m cap pi0).1 s) ∧
    (∀ a', a' < (policy_improvement_infinite m cap pi0).1 s →
      Qval m (policy_improvement_infinite m cap pi0).2 s a' <
        Qval m (policy_improvement_infinite m cap pi0).2 s
          ((policy_improvement_infinite m cap pi0).1 s)) ∧
    (policy_improvement_infinite m cap pi0).1 s < m.A := by
  obtain ⟨V, hV⟩ := piLoopAux_spec m cap cap pi0 hcap
  rw [policy_improvement_infinite, hV]
  have hne : Qlist m V s ≠ [] := by
    intro hemp
    have := Qlist_length m V s
    rw [hemp] at this
    simp at this
    omega
  have hidx : (firstArgmax (Qlist m V s)).1 < m.A := by
    have := firstArgmax_lt (Qlist m V s) hne
    rwa [Qlist_length] at this
  have hval : Qval m V s ((firstArgmax (Qlist m V s)).1) = (firstArgmax (Qlist m V s)).2 := by
    rw [← Qlist_getD m V s _ hidx]
    exact firstArgmax_getD (Qlist m V s) hne
  refine ⟨?_, ?_, ?_⟩
  · have hge := firstArgmax_ge (Qlist m V s) a (by rw [Qlist_length]; exact ha)
    rw [Qlist_getD m V s a ha] at hge
    simp only [improve]
    rw [hval]
    exact hge
  · intro a' ha'
    simp only [improve] at ha' ⊢
    have halt : a' < m.A := lt_trans ha' hidx
    have hfirst := firstArgmax_first (Qlist m V s) a' ha'
    rw [Qlist_getD m V s a' halt] at hfirst
    rw [hval]
    exact hfirst
  · simpa only [improve] using hidx

/-- C6 (witness): the greedy fixed-point property instantiated on the
one-state, one-action MDP `exMDP` with cap 1. -/
theorem policy_improvement_greedy_witness :
    0 < 1 ∧ 0 < exMDP.A ∧ 0 < exMDP.S ∧
    Qval exMDP (policy_improvement_infinite exMDP 1 (fun _ => 0)).2 0 0 ≤
      Qval exMDP (policy_improvement_infinite exMDP 1 (fun _ => 0)).2 0
        ((policy_improvement_infinite exMDP 1 (fun _ => 0)).1 0) :=
  ⟨by norm_num, by norm_num [exMDP], by norm_num [exMDP],
    (policy_improvement_greedy exMDP 1 (fun _ => 0) (by norm_num)
      (by norm_num [exMDP]) 0 0 (by norm_num [exMDP]) (by norm_num [exMDP])).1⟩

lemma sbp_gen_zero (x : ℚ) : sbp_reductions_generic 0 x = some 0 := rfl

lemma dbp_gen_zero (dd : ℚ → ℚ) (x : ℚ) : dbp_reductions_generic dd 0 x = some 0 := rfl

lemma oge_sub_zero (v c : ℚ) : oge (osub v (some 0)) c = decide (c ≤ v) := by
  simp [osub, oge]

lemma olt_sub_zero (v c : ℚ) : olt (osub v (some 0)) c = decide (v < c) := by
  simp [osub, olt]

lemma glRisk0_indep (g : GLin) (ps ps' : ℕ → ℚ) (h : ℕ) :
    glRisk0 g ps h = glRisk0 g ps' h := rfl

/-- C9 (amended): the guideline's escalation regimes are upward closed in
the pre-treatment pressures, so the engine is monotone at the
no-treatment boundary: if the pressures are increased componentwise and
the higher pair still leaves the state on target (neither regime test
fires), then the lower pair does too and both runs return exactly the
no-treatment level 0.  (Full monotonicity fails: crossing from the
stage-2 regime into the first regime can lower the output, see the
counterexample.) -/
theorem aha_monotone_on_target (g : GLin) (psA pdA psB pdB : ℕ → ℚ) (h : ℕ)
    (hs : psA h ≤ psB h) (hd : pdA h ≤ pdB h)
    (hB1 : aha_e1 g psB pdB h = false) (hB2 : aha_e2 g psB pdB h = false) :
    (aha_e1 g psA pdA h = false ∧ aha_e2 g psA pdA h = false) ∧
    aha_guideline_infinite g psA pdA h = some 0 ∧
    aha_guideline_infinite g psB pdB h = some 0 := by
  have hB1f : ¬ (aha_e1 g psB pdB h = true) := by simp [hB1]
  have hB2f : ¬ (aha_e2 g psB pdB h = true) := by simp [hB2]
  rw [aha_e1, sbp_gen_zero, dbp_gen_zero, oge_sub_zero, oge_sub_zero, oge_sub_zero,
    oge_sub_zero, olt_sub_zero, olt_sub_zero] at hB1f
  rw [aha_e2, sbp_gen_zero, dbp_gen_zero, oge_sub_zero, oge_sub_zero] at hB2f
  simp only [Bool.or_eq_true, Bool.and_eq_true, decide_eq_true_eq] at hB1f hB2f
  push_neg at hB1f hB2f
  have hA1 : aha_e1 g psA pdA h = false := by
    rw [Bool.eq_false_iff]
    intro htrue
    rw [aha_e1, sbp_gen_zero, dbp_gen_zero, oge_sub_zero, oge_sub_zero, oge_sub_zero,
      oge_sub_zero, olt_sub_zero, olt_sub_zero] at htrue
    simp only [Bool.or_eq_true, Bool.and_eq_true, decide_eq_true_eq] at htrue
    rw [glRisk0_indep g psA psB h] at htrue
    rcases htrue with ⟨hrisk, hp⟩ | ⟨hp, _⟩
    · have hnp := hB1f.1 hrisk
      rcases hp with hp | hp
      · linarith [hnp.1]
      · linarith [hnp.2]
    · have hpB : 140 ≤ psB h ∨ 90 ≤ pdB h := by
        rcases hp with hp | hp
        · exact Or.inl (by linarith)
        · exact Or.inr (by linarith)
      have := hB1f.2 hpB hB2f.1
      linarith [hB2f.2]
  have hA2 : aha_e2 g psA pdA h = false := by
    rw [Bool.eq_false_iff]
    intro htrue
    rw [aha_e2, sbp_gen_zero, dbp_gen_zero, oge_sub_zero, oge_sub_zero] at htrue
    simp only [Bool.or_eq_true, decide_eq_true_eq] at htrue
    rcases htrue with hp | hp
    · linarith [hB2f.1]
    · linarith [hB2f.2]
  have hB2e : aha_e2 g psB pdB h = false := hB2
  refine ⟨⟨hA1, hA2⟩, ?_, ?_⟩
  · rw [aha_guideline_infinite, hA1, hA2]
    simp
  · rw [aha_guideline_infinite, hB1, hB2e]
    simp

/-- C9 (witness): the on-target monotonicity instantiated on `exC9w`
(standard 130/80 targets) for the componentwise increase
(100, 60) ≤ (110, 70). -/
theorem aha_monotone_on_target_witness :
    (100 : ℚ) ≤ 110 ∧ (60 : ℚ) ≤ 70 ∧
    aha_guideline_infinite exC9w (fun _ => 100) (fun _ => 60) 0 = some 0 ∧
    aha_guideline_infinite exC9w (fun _ => 110) (fun _ => 70) 0 = some 0 :=
  ⟨by norm_num, by norm_num,
    (aha_monotone_on_target exC9w (fun _ => 100) (fun _ => 60) (fun _ => 110) (fun _ => 70) 0
      (by norm_num) (by norm_num)
      (by norm_num [aha_e1, glRisk0, new_risk_o, new_risk, sbp_reductions_generic,
        dbp_reductions_generic, SBPreduc, oge, olt, osub, exC9w])
      (by norm_num [aha_e2, sbp_reductions_generic, dbp_reductions_generic,
        oge, olt, osub, exC9w])).2⟩
